import Mathlib

/-!
Verification of the interactive PTY session engine
(src/server/claude/claude_pty_wrapper.py).

Shallow embedding conventions:
- Python strings are modelled as List Char (decoded text) or List Nat
  (byte strings).
- Wall-clock times are Nat milliseconds; the sub-second thresholds of the
  source (0.5 s debounce, 5.0 s inactivity) become 500 and 5000.
- Effectful calls (PTY reads and writes, subprocess polling, restarts) are
  abstracted as explicit traces or environment oracles; the pure decision
  logic is translated line by line from the source.
-/

namespace ClaudePTY

/-! ### Prompt readiness detector (is_prompt_ready, source lines 227-250) -/

/-- Substring containment, the model of the Python `in` operator on str. -/
def containsSub (pat s : List Char) : Bool := decide (pat <:+: s)

/-- Suffix test, the model of Python str.endswith. -/
def endsWith (pat s : List Char) : Bool := decide (pat <:+ s)

/-- The prompt_patterns list of is_prompt_ready (source lines 230-233). -/
def prompt_patterns : List (List Char) :=
  [("? for shortcuts").toList, ("Bypassing Permissions").toList]

/-- The clear_patterns list of is_prompt_ready (source line 239). -/
def clear_patterns : List (List Char) :=
  [("\x1b[2J").toList, ("\x1b[H\x1b[2J").toList, ("\x1b[2J\x1b[H").toList]

/-- The literal prompt tail checked by recent_buffer.endswith (source line 247). -/
def gtSpace : List Char := ("> ").toList

/-- The shortcuts marker literal (source lines 231 and 247). -/
def shortcutsMarker : List Char := ("? for shortcuts").toList

/-- The recent_buffer computation of source line 236:
buffer[-200:] if len(buffer) > 200 else buffer. -/
def recentOf (buffer : List Char) : List Char :=
  if buffer.length > 200 then buffer.drop (buffer.length - 200) else buffer

/-- The body of is_prompt_ready after recent_buffer has been taken
(source lines 238-250). -/
def prompt_ready_core (recent_buffer : List Char) : Bool :=
  let has_clear := clear_patterns.any (fun p => containsSub p recent_buffer)
  if has_clear then
    prompt_patterns.any (fun p => containsSub p recent_buffer)
  else
    endsWith gtSpace recent_buffer || containsSub shortcutsMarker recent_buffer

/-- is_prompt_ready (source lines 227-250): readiness decision over the
rolling output buffer. -/
def is_prompt_ready (buffer : List Char) : Bool :=
  prompt_ready_core (recentOf buffer)

/-- Modelled from the claim C4 text (not from the source): readiness as the
claim states it, where clause (b) alone is said to suffice even when a
screen-clear sequence is present without a marker. -/
def claimed_prompt_ready (buffer : List Char) : Bool :=
  (clear_patterns.any (fun p => containsSub p (recentOf buffer)) &&
    prompt_patterns.any (fun q => containsSub q (recentOf buffer)))
  || (endsWith gtSpace (recentOf buffer) ||
      containsSub shortcutsMarker (recentOf buffer))

/-- A buffer holding a screen-clear sequence, no prompt marker, ending in
the two-character prompt tail. -/
def clearThenArrow : List Char := ("\x1b[2J> ").toList

theorem recentOf_eq_drop (buffer : List Char) :
    recentOf buffer = buffer.drop (buffer.length - 200) := by
  unfold recentOf
  split
  · rfl
  · next h =>
    have h200 : buffer.length - 200 = 0 := by omega
    rw [h200, List.drop_zero]

theorem length_recentOf_le (buffer : List Char) : (recentOf buffer).length ≤ 200 := by
  rw [recentOf_eq_drop, List.length_drop]
  omega

theorem recentOf_idem (buffer : List Char) : recentOf (recentOf buffer) = recentOf buffer := by
  have h := length_recentOf_le buffer
  conv_lhs => rw [recentOf]
  split
  · next hgt => exact absurd hgt (by omega)
  · rfl

/-- Claim C8: for every text buffer b, is_prompt_ready b equals
is_prompt_ready applied to the trailing 200 characters of b; characters
earlier than the trailing 200 never change the readiness decision. -/
theorem claim8_tail200_suffices (b : List Char) :
    is_prompt_ready b = is_prompt_ready (b.drop (b.length - 200)) := by
  unfold is_prompt_ready
  rw [← recentOf_eq_drop, recentOf_idem]

/-- Claim C4 counterexample: on a buffer holding a screen-clear sequence,
no prompt marker, and ending in the two-character prompt tail, the claimed
condition (clause (b) suffices even with a clear sequence present) is true
while is_prompt_ready returns false. -/
theorem claim4_counterexample :
    claimed_prompt_ready clearThenArrow = true ∧
    is_prompt_ready clearThenArrow = false := by
  constructor
  · decide
  · decide

/-- Claim C4 amended: is_prompt_ready returns true iff (a) the tail holds a
recognized screen-clear sequence together with a recognized prompt marker,
or (b) the tail holds no screen-clear sequence and either ends with the
literal two-character prompt tail or holds the shortcuts marker; clause (b)
does not apply once a screen-clear sequence is present. -/
theorem claim4_readiness_characterization (buffer : List Char) :
    is_prompt_ready buffer = true ↔
      ((∃ p ∈ clear_patterns, p <:+: recentOf buffer) ∧
        (∃ q ∈ prompt_patterns, q <:+: recentOf buffer)) ∨
      ((∀ p ∈ clear_patterns, ¬ p <:+: recentOf buffer) ∧
        (gtSpace <:+ recentOf buffer ∨ shortcutsMarker <:+: recentOf buffer)) := by
  unfold is_prompt_ready prompt_ready_core containsSub endsWith
  by_cases hc : ∃ p ∈ clear_patterns, p <:+: recentOf buffer
  · have hb : clear_patterns.any (fun p => decide (p <:+: recentOf buffer)) = true := by
      simpa [List.any_eq_true] using hc
    simp only [hb, if_true]
    simp [List.any_eq_true, hc]
  · have hb : clear_patterns.any (fun p => decide (p <:+: recentOf buffer)) = false := by
      simpa [List.any_eq_false, List.any_eq_true] using hc
    simp only [hb, Bool.false_eq_true, if_false]
    have hall : ∀ p ∈ clear_patterns, ¬ p <:+: recentOf buffer := by
      intro p hp hinf
      exact hc ⟨p, hp, hinf⟩
    rw [Bool.or_eq_true, decide_eq_true_eq, decide_eq_true_eq]
    constructor
    · intro h
      exact Or.inr ⟨hall, h⟩
    · rintro (⟨⟨p, hp, hinf⟩, _⟩ | ⟨_, h⟩)
      · exact absurd hinf (hall p hp)
      · exact h

/-! ### Message sender (send_message_chunked, source lines 102-134) -/

/-- CHUNK_SIZE (source line 110). -/
def CHUNK_SIZE : Nat := 1024

/-- The chunk computation of source lines 112-113:
message_bytes[i:i + CHUNK_SIZE] for i in range(0, len(message_bytes), CHUNK_SIZE).
Bytes are Nat. A chunk size of zero never occurs at the call site (the
source fixes it to 1024); that unreachable case yields no chunks here. -/
def chunkBytes (c : Nat) (bytes : List Nat) : List (List Nat) :=
  if bytes.isEmpty || c == 0 then []
  else bytes.take c :: chunkBytes c (bytes.drop c)
termination_by bytes.length
decreasing_by
  next h =>
  simp only [Bool.or_eq_true, List.isEmpty_eq_true, beq_iff_eq] at h
  push_neg at h
  have h1 : bytes ≠ [] := h.1
  have h2 : c ≠ 0 := h.2
  have : 0 < bytes.length := List.length_pos.mpr h1
  rw [List.length_drop]
  omega

/-- One write to the PTY master performed by send_message_chunked: either a
data chunk (source line 119) or the single commit carriage return
(source line 127). -/
inductive PtyWrite
  | chunk (bytes : List Nat)
  | commit
deriving DecidableEq

/-- The wrapper fields send_message_chunked consults (source line 104):
truthiness of self.claude_process and the session_ready flag. -/
structure SendState where
  hasProcess : Bool
  session_ready : Bool
deriving DecidableEq

/-- send_message_chunked (source lines 102-134), with the message already
UTF-8 encoded to bytes (source line 111) and the writes it performs made
explicit. Returns the success flag and the ordered list of writes; the
timing sleeps and log emissions carry no data and are elided. -/
def send_message_chunked (st : SendState) (message_bytes : List Nat) :
    Bool × List PtyWrite :=
  if !st.hasProcess || !st.session_ready then
    (false, [])
  else
    let chunks := chunkBytes CHUNK_SIZE message_bytes
    (true, chunks.map PtyWrite.chunk ++ [PtyWrite.commit])

theorem chunkBytes_join (c : Nat) (hc : 0 < c) (bytes : List Nat) :
    (chunkBytes c bytes).flatten = bytes := by
  induction bytes using chunkBytes.induct c with
  | case1 bytes h =>
    rw [chunkBytes, if_pos h]
    simp only [Bool.or_eq_true, List.isEmpty_eq_true, beq_iff_eq] at h
    rcases h with h | h
    · simp [h]
    · omega
  | case2 bytes h ih =>
    rw [chunkBytes, if_neg h]
    rw [List.flatten_cons, ih]
    exact List.take_append_drop c bytes

theorem chunkBytes_mem (c : Nat) (hc : 0 < c) (bytes : List Nat) :
    ∀ l ∈ chunkBytes c bytes, 0 < l.length ∧ l.length ≤ c := by
  induction bytes using chunkBytes.induct c with
  | case1 bytes h =>
    rw [chunkBytes, if_pos h]
    simp
  | case2 bytes h ih =>
    rw [chunkBytes, if_neg h]
    simp only [Bool.or_eq_true, List.isEmpty_eq_true, beq_iff_eq] at h
    push_neg at h
    have hpos : 0 < bytes.length := List.length_pos.mpr h.1
    intro l hl
    rcases List.mem_cons.mp hl with rfl | hl
    · rw [List.length_take]
      omega
    · exact ih l hl

theorem chunkBytes_dropLast (c : Nat) (bytes : List Nat) :
    ∀ l ∈ (chunkBytes c bytes).dropLast, l.length = c := by
  induction bytes using chunkBytes.induct c with
  | case1 bytes h =>
    rw [chunkBytes, if_pos h]
    simp
  | case2 bytes h ih =>
    rw [chunkBytes, if_neg h]
    simp only [Bool.or_eq_true, List.isEmpty_eq_true, beq_iff_eq] at h
    push_neg at h
    intro l hl
    rcases hrec : chunkBytes c (bytes.drop c) with _ | ⟨hd, tl⟩
    · rw [hrec] at hl
      simp at hl
    · rw [hrec] at hl
      rw [List.dropLast_cons_of_ne_nil (by simp)] at hl
      rcases List.mem_cons.mp hl with rfl | hl
      · rw [List.length_take]
        have hdrop : ¬ (bytes.drop c).isEmpty = true := by
          intro hemp
          rw [chunkBytes] at hrec
          simp [hemp] at hrec
        rw [List.isEmpty_eq_true] at hdrop
        have hp : 0 < (bytes.drop c).length := List.length_pos.mpr hdrop
        rw [List.length_drop] at hp
        omega
      · have h2 := ih l
        rw [hrec] at h2
        exact h2 hl

/-- Claim C5: on a ready session, the chunks written by
send_message_chunked are consecutive 1024-byte slices of the encoded
message, in order, with only the last possibly shorter and never empty,
and the writes are exactly those chunks followed by the single commit
carriage return; concatenating the chunks in emission order reconstructs
the encoded message exactly. -/
theorem claim5_chunker_roundtrip (st : SendState) (message_bytes : List Nat)
    (hp : st.hasProcess = true) (hr : st.session_ready = true) :
    (send_message_chunked st message_bytes).1 = true ∧
    (send_message_chunked st message_bytes).2 =
      (chunkBytes CHUNK_SIZE message_bytes).map PtyWrite.chunk ++ [PtyWrite.commit] ∧
    (chunkBytes CHUNK_SIZE message_bytes).flatten = message_bytes ∧
    (∀ l ∈ (chunkBytes CHUNK_SIZE message_bytes).dropLast, l.length = CHUNK_SIZE) ∧
    (∀ l ∈ chunkBytes CHUNK_SIZE message_bytes, 0 < l.length ∧ l.length ≤ CHUNK_SIZE) := by
  have hguard : (!st.hasProcess || !st.session_ready) = false := by
    rw [hp, hr]
    rfl
  refine ⟨?_, ?_, ?_, ?_, ?_⟩
  · rw [send_message_chunked, hguard]
    rfl
  · rw [send_message_chunked, hguard]
    rfl
  · exact chunkBytes_join CHUNK_SIZE (by decide) message_bytes
  · exact chunkBytes_dropLast CHUNK_SIZE message_bytes
  · exact chunkBytes_mem CHUNK_SIZE (by decide) message_bytes

/-- A ready send state: a live subprocess handle and session_ready set. -/
def readyState : SendState := SendState.mk true true

/-- A three-byte sample message. -/
def sampleBytes : List Nat := [104, 105, 33]

/-- Witness for claim C5 at a concrete ready state and message. -/
theorem claim5_witness :
    readyState.hasProcess = true ∧ readyState.session_ready = true ∧
    ((send_message_chunked readyState sampleBytes).1 = true ∧
      (send_message_chunked readyState sampleBytes).2 =
        (chunkBytes CHUNK_SIZE sampleBytes).map PtyWrite.chunk ++ [PtyWrite.commit] ∧
      (chunkBytes CHUNK_SIZE sampleBytes).flatten = sampleBytes) :=
  ⟨rfl, rfl,
    (claim5_chunker_roundtrip readyState sampleBytes rfl rfl).1,
    (claim5_chunker_roundtrip readyState sampleBytes rfl rfl).2.1,
    (claim5_chunker_roundtrip readyState sampleBytes rfl rfl).2.2.1⟩

/-- Claim C10: calling send_message_chunked with the empty message on a
ready session writes zero data chunks, still writes the commit carriage
return, and returns success: an empty message submits an empty input line
rather than failing or being a no-op. -/
theorem claim10_empty_message (st : SendState)
    (hp : st.hasProcess = true) (hr : st.session_ready = true) :
    chunkBytes CHUNK_SIZE [] = [] ∧
    send_message_chunked st [] = (true, [PtyWrite.commit]) := by
  have hguard : (!st.hasProcess || !st.session_ready) = false := by
    rw [hp, hr]
    rfl
  have hnil : chunkBytes CHUNK_SIZE [] = [] := by
    rw [chunkBytes]
    rfl
  refine ⟨hnil, ?_⟩
  rw [send_message_chunked, hguard]
  simp [hnil]

/-- Witness for claim C10 at a concrete ready state. -/
theorem claim10_witness :
    chunkBytes CHUNK_SIZE [] = [] ∧
    send_message_chunked readyState [] = (true, [PtyWrite.commit]) :=
  claim10_empty_message readyState rfl rfl

/-! ### Python str.strip model -/

/-- ASCII whitespace stripped by Python str.strip with no argument
(further Unicode whitespace is not exercised by the source). -/
def pyIsSpace (ch : Char) : Bool :=
  ch == ' ' || ch == '\t' || ch == '\n' || ch == '\r' || ch == '\x0b' || ch == '\x0c'

/-- Python str.strip(): drop leading and trailing whitespace. -/
def pyStrip (s : List Char) : List Char :=
  ((s.dropWhile pyIsSpace).reverse.dropWhile pyIsSpace).reverse

/-- Truthiness of response.strip() in the source: some non-whitespace
character remains. -/
def stripTruthy (s : List Char) : Bool :=
  !(pyStrip s).isEmpty

/-! ### Retry/Restart supervisor (restart_claude_session, source lines
320-358, and process_queue_item, source lines 252-318) -/

/-- The method names defined on the ClaudePTYWrapper class (source lines
19-459), as read off the class body. -/
def wrapperMethods : List String :=
  [("__init__"), ("get_claude_command"), ("start_session"),
   ("wait_for_ready_prompt"), ("send_message_chunked"),
   ("stream_terminal_output"), ("is_prompt_ready"), ("process_queue_item"),
   ("restart_claude_session"), ("log_message"), ("log_error"), ("log_debug"),
   ("log_output"), ("print_json"), ("cleanup"), ("run_interactive_mode")]

/-- The method name restart_claude_session looks up on self at source
line 348. -/
def startClaudeName : String := "start_claude"

/-- External outcomes a restart could depend on: whether a fresh PTY
relaunch would succeed. -/
structure RestartEnv where
  relaunchOk : Bool
deriving DecidableEq

/-- restart_claude_session (source lines 320-358). After tearing down the
old subprocess and descriptors, line 348 reads self.start_claude; Python
attribute lookup succeeds only if the class defines that method, and the
surrounding try/except turns an AttributeError into a False return
(source lines 356-358). -/
def restart_claude_session (env : RestartEnv) : Bool :=
  if wrapperMethods.contains startClaudeName then
    env.relaunchOk
  else
    false

/-- Claim C1: restart_claude_session can never report success, because the
class defines no method named start_claude; the relaunch call of source
line 348 raises AttributeError, the except clause swallows it, and False
is returned in every execution environment. -/
theorem claim1_restart_never_succeeds :
    (∀ env : RestartEnv, restart_claude_session env = false) ∧
    wrapperMethods.contains startClaudeName = false := by
  constructor
  · intro env
    rw [restart_claude_session]
    rfl
  · rfl

/-- The outcomes one retry attempt of process_queue_item depends on:
whether the dead-process check of source line 263 fires, what the restart
call would report, whether send_message_chunked succeeds, and the text
stream_terminal_output returns. -/
structure AttemptEnv where
  procDead : Bool
  restartOk : Bool
  sendOk : Bool
  streamOut : List Char
deriving DecidableEq

/-- The collaborator calls one attempt of process_queue_item performs, in
order. -/
inductive AttemptStep
  | restarted
  | sent
  | streamed
deriving DecidableEq

/-- The status dictionaries process_queue_item can return
(source lines 266-270, 279-282, 288-293, 299-302, 315-318; the exception
branch of lines 304-312 is unreachable in this pure model). -/
inductive QueueStatus
  | completed (output : List Char) (attempts : Nat)
  | errorRestartFailed (attempt : Nat)
  | errorSendFailed
  | errorNoResponse
  | errorUnexpected
deriving DecidableEq

/-- Result of running the retry loop: final status, ordered collaborator
trace, and the number of loop iterations executed. -/
structure ProcessResult where
  status : QueueStatus
  trace : List AttemptStep
  attemptsRun : Nat
deriving DecidableEq

/-- The retry loop of process_queue_item (source lines 256-312), indexed by
the number of remaining iterations r; the current attempt index is
max_retries - r. The backoff sleep of line 260 carries no data and is
elided. -/
def runAttempts (env : Nat → AttemptEnv) (max_retries : Nat) :
    Nat → ProcessResult
  | 0 => ProcessResult.mk QueueStatus.errorUnexpected [] 0
  | r + 1 =>
    let attempt := max_retries - (r + 1)
    let e := env attempt
    if e.procDead && !e.restartOk then
      ProcessResult.mk (QueueStatus.errorRestartFailed (attempt + 1))
        [AttemptStep.restarted] 1
    else
      let preTrace := if e.procDead then [AttemptStep.restarted] else []
      if !e.sendOk then
        if 0 < r then
          let res := runAttempts env max_retries r
          ProcessResult.mk res.status
            (preTrace ++ [AttemptStep.sent] ++ res.trace) (res.attemptsRun + 1)
        else
          ProcessResult.mk QueueStatus.errorSendFailed
            (preTrace ++ [AttemptStep.sent]) 1
      else
        if stripTruthy e.streamOut then
          ProcessResult.mk (QueueStatus.completed e.streamOut (attempt + 1))
            (preTrace ++ [AttemptStep.sent, AttemptStep.streamed]) 1
        else if 0 < r then
          let res := runAttempts env max_retries r
          ProcessResult.mk res.status
            (preTrace ++ [AttemptStep.sent, AttemptStep.streamed] ++ res.trace)
            (res.attemptsRun + 1)
        else
          ProcessResult.mk QueueStatus.errorNoResponse
            (preTrace ++ [AttemptStep.sent, AttemptStep.streamed]) 1

/-- process_queue_item (source lines 252-318): run the retry loop with all
max_retries iterations remaining. -/
def process_queue_item (env : Nat → AttemptEnv) (max_retries : Nat) :
    ProcessResult :=
  runAttempts env max_retries max_retries

theorem runAttempts_le (env : Nat → AttemptEnv) (max_retries : Nat) :
    ∀ r, (runAttempts env max_retries r).attemptsRun ≤ r := by
  intro r
  induction r with
  | zero => rfl
  | succ r ih =>
    rw [runAttempts]
    by_cases h1 : ((env (max_retries - (r + 1))).procDead &&
        !(env (max_retries - (r + 1))).restartOk) = true
    · simp [h1]
    · by_cases h2 : (!(env (max_retries - (r + 1))).sendOk) = true
      · by_cases h3 : 0 < r
        · simp only [h1, h2, h3, if_true, if_false, Bool.false_eq_true]
          simp
          omega
        · simp [h1, h2, h3]
      · by_cases h4 : stripTruthy (env (max_retries - (r + 1))).streamOut = true
        · simp [h1, h2, h4]
        · by_cases h3 : 0 < r
          · simp only [h1, h2, h4, h3, if_true, if_false, Bool.false_eq_true]
            simp
            omega
          · simp [h1, h2, h3, h4]

/-- Claim C2: with max_retries = 3, (i) if every attempt finds the process
alive and every send fails, exactly three attempts run and the result is
the send-failure error; (ii) if the first send fails and the second
attempt sends and streams a response that survives strip, the result is
completed with attempts = 2; (iii) the attempt counter never exceeds 3 in
any execution. -/
theorem claim2_retry_loop (envA envB : Nat → AttemptEnv)
    (hA : ∀ i, (envA i).procDead = false ∧ (envA i).sendOk = false)
    (hB0d : (envB 0).procDead = false) (hB0s : (envB 0).sendOk = false)
    (hB1d : (envB 1).procDead = false) (hB1s : (envB 1).sendOk = true)
    (hB1o : stripTruthy (envB 1).streamOut = true) :
    (process_queue_item envA 3).attemptsRun = 3 ∧
    (process_queue_item envA 3).status = QueueStatus.errorSendFailed ∧
    (process_queue_item envB 3).status =
      QueueStatus.completed (envB 1).streamOut 2 ∧
    (∀ env : Nat → AttemptEnv, (process_queue_item env 3).attemptsRun ≤ 3) := by
  obtain ⟨hA0d, hA0s⟩ := hA 0
  obtain ⟨hA1d, hA1s⟩ := hA 1
  obtain ⟨hA2d, hA2s⟩ := hA 2
  have h1 : runAttempts envA 3 1 =
      ProcessResult.mk QueueStatus.errorSendFailed [AttemptStep.sent] 1 := by
    show runAttempts envA 3 (0 + 1) = _
    rw [runAttempts]
    simp [hA2d, hA2s]
  have h2 : runAttempts envA 3 2 =
      ProcessResult.mk QueueStatus.errorSendFailed
        [AttemptStep.sent, AttemptStep.sent] 2 := by
    show runAttempts envA 3 (1 + 1) = _
    rw [runAttempts]
    simp [hA1d, hA1s, h1]
  have h3 : runAttempts envA 3 3 =
      ProcessResult.mk QueueStatus.errorSendFailed
        [AttemptStep.sent, AttemptStep.sent, AttemptStep.sent] 3 := by
    show runAttempts envA 3 (2 + 1) = _
    rw [runAttempts]
    simp [hA0d, hA0s, h2]
  have hb2 : runAttempts envB 3 2 =
      ProcessResult.mk (QueueStatus.completed (envB 1).streamOut 2)
        [AttemptStep.sent, AttemptStep.streamed] 1 := by
    show runAttempts envB 3 (1 + 1) = _
    rw [runAttempts]
    simp [hB1d, hB1s, hB1o]
  have hb3 : runAttempts envB 3 3 =
      ProcessResult.mk (QueueStatus.completed (envB 1).streamOut 2)
        [AttemptStep.sent, AttemptStep.sent, AttemptStep.streamed] 2 := by
    show runAttempts envB 3 (2 + 1) = _
    rw [runAttempts]
    simp [hB0d, hB0s, hb2]
  refine ⟨?_, ?_, ?_, ?_⟩
  · rw [process_queue_item, h3]
  · rw [process_queue_item, h3]
  · rw [process_queue_item, hb3]
  · intro env
    exact runAttempts_le env 3 3

/-- An environment whose every attempt finds the process alive and fails
to send. -/
def envAllFail : Nat → AttemptEnv :=
  fun _ => AttemptEnv.mk false false false []

/-- An environment whose first attempt fails to send and whose second
sends and streams a nonblank response. -/
def envFailOnce : Nat → AttemptEnv :=
  fun i =>
    if i = 0 then AttemptEnv.mk false false false []
    else AttemptEnv.mk false false true (("ok").toList)

/-- Witness for claim C2 at concrete environments. -/
theorem claim2_witness :
    (process_queue_item envAllFail 3).attemptsRun = 3 ∧
    (process_queue_item envAllFail 3).status = QueueStatus.errorSendFailed ∧
    (process_queue_item envFailOnce 3).status =
      QueueStatus.completed (envFailOnce 1).streamOut 2 ∧
    (process_queue_item envFailOnce 3).attemptsRun ≤ 3 := by
  have h := claim2_retry_loop envAllFail envFailOnce
    (fun i => ⟨rfl, rfl⟩) rfl rfl rfl rfl (by decide)
  exact ⟨h.1, h.2.1, h.2.2.1, h.2.2.2 envFailOnce⟩

/-- Claim C6: when the dead-process check fires at the start of an attempt
and the restart fails, process_queue_item returns the restart error at
once: the restart is the only collaborator call of the attempt (the sender
is never invoked) and no further attempts run. -/
theorem claim6_restart_gate (env : Nat → AttemptEnv) (max_retries r : Nat)
    (hr : 0 < r)
    (hdead : (env (max_retries - r)).procDead = true)
    (hfail : (env (max_retries - r)).restartOk = false) :
    runAttempts env max_retries r =
      ProcessResult.mk (QueueStatus.errorRestartFailed (max_retries - r + 1))
        [AttemptStep.restarted] 1 ∧
    AttemptStep.sent ∉ (runAttempts env max_retries r).trace ∧
    (r = max_retries →
      process_queue_item env max_retries =
        ProcessResult.mk (QueueStatus.errorRestartFailed 1)
          [AttemptStep.restarted] 1) := by
  obtain ⟨r', rfl⟩ : ∃ r', r = r' + 1 := ⟨r - 1, by omega⟩
  have hrun : runAttempts env max_retries (r' + 1) =
      ProcessResult.mk
        (QueueStatus.errorRestartFailed (max_retries - (r' + 1) + 1))
        [AttemptStep.restarted] 1 := by
    rw [runAttempts]
    simp [hdead, hfail]
  refine ⟨hrun, ?_, ?_⟩
  · rw [hrun]
    simp
  · intro heq
    subst heq
    rw [process_queue_item, hrun]
    simp

/-- An environment whose first attempt finds the process dead and whose
restart reports failure. -/
def envDeadRestartFail : Nat → AttemptEnv :=
  fun _ => AttemptEnv.mk true false false []

/-- Witness for claim C6 at a concrete environment with the death detected
on the first of three attempts. -/
theorem claim6_witness :
    runAttempts envDeadRestartFail 3 3 =
      ProcessResult.mk (QueueStatus.errorRestartFailed 1)
        [AttemptStep.restarted] 1 ∧
    AttemptStep.sent ∉ (runAttempts envDeadRestartFail 3 3).trace ∧
    process_queue_item envDeadRestartFail 3 =
      ProcessResult.mk (QueueStatus.errorRestartFailed 1)
        [AttemptStep.restarted] 1 := by
  have h := claim6_restart_gate envDeadRestartFail 3 3 (by decide) rfl rfl
  exact ⟨h.1, h.2.1, h.2.2 rfl⟩

/-! ### Response streamer (stream_terminal_output, source lines 136-225) -/

/-- The clear_patterns list of the streaming loop (source line 170); it
has one more entry than the detector list of line 239. -/
def stream_clear_patterns : List (List Char) :=
  [("\x1b[2J").toList, ("\x1b[H\x1b[2J").toList, ("\x1b[2J\x1b[H").toList,
   ("\x1b[3J").toList]

/-- One loop iteration of stream_terminal_output as seen from outside:
the wall-clock time of the iteration in milliseconds, whether poll() still
reports the subprocess alive, and the decoded bytes the select/read pair
delivered (none when select timed out, some text when a read returned). -/
structure ReadEvent where
  time : Nat
  alive : Bool
  data : Option (List Char)
deriving DecidableEq

/-- A structured event printed by the streaming loop. Log lines carry no
data needed here; their texts are elided. -/
inductive TEvent
  | terminal_output (data : List Char) (timestamp : Nat)
  | screen_clear (timestamp : Nat)
  | output_update (data : List Char) (timestamp : Nat)
  | response_complete (output : List Char) (timestamp : Nat)
  | response_timeout (output : List Char) (timestamp : Nat)
  | logInfo
  | logError
deriving DecidableEq

/-- Which exit the streaming loop took. -/
inductive StreamExit
  | promptReady
  | inactivityDone
  | hardTimeout
  | processDied
  | scriptEnded
deriving DecidableEq

/-- Result of the streaming loop: exit cause, the returned complete_output,
and the ordered structured events printed from the observed iteration on. -/
structure StreamResult where
  exit : StreamExit
  output : List Char
  events : List TEvent
deriving DecidableEq

/-- Recognizer for the response_timeout event variant. -/
def TEvent.isResponseTimeout : TEvent → Bool
  | .response_timeout _ _ => true
  | _ => false

/-- The code after the while loop (source lines 218-225): a log line, then
a response_timeout event only when the accumulated output survives strip,
and the accumulated output is returned either way. -/
def streamFinishEvents (complete : List Char) (t : Nat) : List TEvent :=
  TEvent.logError ::
    (if stripTruthy complete then [TEvent.response_timeout complete t] else [])

/-- The while loop of stream_terminal_output (source lines 144-216), driven
by the scripted iteration list. State arguments mirror the locals: buffer,
complete_output, output_chunks, last_chunk_time, and the
self.last_output_time field. Each iteration takes one wall-clock reading.
If the script ends before any loop exit is reached, the distinguished
scriptEnded result is returned. -/
def streamLoop (timeout startTime : Nat) :
    List ReadEvent → List Char → List Char → List (List Char) → Nat → Nat →
      StreamResult
  | [], _, complete, _, _, _ =>
    StreamResult.mk StreamExit.scriptEnded complete []
  | ReadEvent.mk t alive (some text) :: rest, buffer, complete, chunks, lct, lot =>
    if t - startTime < timeout then
      if alive then
        if text.isEmpty then
          streamLoop timeout startTime rest buffer complete chunks lct lot
        else
          let buffer2 := buffer ++ text
          let complete2 := complete ++ text
          let evs1 := TEvent.terminal_output text t ::
            (if stream_clear_patterns.any (fun p => containsSub p text) then
              [TEvent.screen_clear t]
            else [])
          if is_prompt_ready buffer2 then
            StreamResult.mk StreamExit.promptReady complete2
              (evs1 ++ [TEvent.logInfo, TEvent.response_complete complete2 t])
          else
            let r := streamLoop timeout startTime rest buffer2 complete2
              (chunks ++ [text]) t t
            StreamResult.mk r.exit r.output (evs1 ++ r.events)
      else
        StreamResult.mk StreamExit.processDied complete
          (TEvent.logError :: streamFinishEvents complete t)
    else
      StreamResult.mk StreamExit.hardTimeout complete (streamFinishEvents complete t)
  | ReadEvent.mk t alive none :: rest, buffer, complete, chunks, lct, lot =>
    if t - startTime < timeout then
      if alive then
        let fire := !chunks.isEmpty && decide (500 < t - lct)
        let acc := chunks.flatten
        let evU :=
          if fire then
            if stripTruthy acc then [TEvent.output_update acc t] else []
          else []
        let chunks2 := if fire then [] else chunks
        if 5000 < t - lot then
          if stripTruthy complete then
            StreamResult.mk StreamExit.inactivityDone complete
              (evU ++ [TEvent.logInfo, TEvent.response_complete complete t])
          else
            let r := streamLoop timeout startTime rest buffer complete
              chunks2 lct lot
            StreamResult.mk r.exit r.output (evU ++ r.events)
        else
          let r := streamLoop timeout startTime rest buffer complete
            chunks2 lct lot
          StreamResult.mk r.exit r.output (evU ++ r.events)
      else
        StreamResult.mk StreamExit.processDied complete
          (TEvent.logError :: streamFinishEvents complete t)
    else
      StreamResult.mk StreamExit.hardTimeout complete (streamFinishEvents complete t)

/-- stream_terminal_output (source lines 136-225): run the loop on empty
buffers, with last_chunk_time initialised to the entry time (line 142) and
the inherited self.last_output_time passed in. -/
def stream_terminal_output (timeout startTime lastOutputTime0 : Nat)
    (evs : List ReadEvent) : StreamResult :=
  streamLoop timeout startTime evs [] [] [] startTime lastOutputTime0

/-- The premises of claim C3 on a scripted run, checked against the same
guards the loop evaluates: until the wall clock passes the hard timeout,
the subprocess stays alive, no read makes the accumulated buffer satisfy
is_prompt_ready, and no idle iteration reaches the 5-second inactivity
gap; the script does reach the hard-timeout boundary. -/
def runsToTimeout (timeout startTime : Nat) :
    List ReadEvent → List Char → Nat → Bool
  | [], _, _ => false
  | ReadEvent.mk t alive (some text) :: rest, buffer, lot =>
    if t - startTime < timeout then
      alive &&
        (if text.isEmpty then runsToTimeout timeout startTime rest buffer lot
         else
           !(is_prompt_ready (buffer ++ text)) &&
             runsToTimeout timeout startTime rest (buffer ++ text) t)
    else
      true
  | ReadEvent.mk t alive none :: rest, buffer, lot =>
    if t - startTime < timeout then
      alive &&
        (!(decide (5000 < t - lot)) &&
          runsToTimeout timeout startTime rest buffer lot)
    else
      true

/-- The reads the loop consumes before the hard-timeout boundary. -/
def consumedReads (timeout startTime : Nat) : List ReadEvent → List (List Char)
  | [] => []
  | ReadEvent.mk t _ (some text) :: rest =>
    if t - startTime < timeout then text :: consumedReads timeout startTime rest
    else []
  | ReadEvent.mk t _ none :: rest =>
    if t - startTime < timeout then consumedReads timeout startTime rest
    else []

theorem streamLoop_runs_to_timeout (timeout startTime : Nat)
    (evs : List ReadEvent) :
    ∀ buffer complete chunks lct lot,
      runsToTimeout timeout startTime evs buffer lot = true →
      (streamLoop timeout startTime evs buffer complete chunks lct lot).exit
          = StreamExit.hardTimeout ∧
      (streamLoop timeout startTime evs buffer complete chunks lct lot).output
          = complete ++ (consumedReads timeout startTime evs).flatten ∧
      (streamLoop timeout startTime evs buffer complete chunks
          lct lot).events.any TEvent.isResponseTimeout
        = stripTruthy
            (complete ++ (consumedReads timeout startTime evs).flatten) := by
  induction evs with
  | nil =>
    intro buffer complete chunks lct lot h
    simp only [runsToTimeout] at h
    exact absurd h Bool.false_ne_true
  | cons e rest ih =>
    obtain ⟨t, alive, odata⟩ := e
    intro buffer complete chunks lct lot h
    rcases odata with _ | text
    · -- idle iteration
      simp only [runsToTimeout] at h
      simp only [streamLoop, consumedReads]
      by_cases hw : t - startTime < timeout
      · simp only [hw, if_true] at h ⊢
        have halive : alive = true := by
          cases alive
          · simp at h
          · rfl
        subst halive
        rw [Bool.true_and, Bool.and_eq_true, Bool.not_eq_true',
          decide_eq_false_iff_not] at h
        obtain ⟨hgap, hrec⟩ := h
        simp only [if_true]
        rw [if_neg hgap]
        have hih := ih buffer complete
          (if (!chunks.isEmpty && decide (500 < t - lct)) = true then []
           else chunks) lct lot hrec
        refine ⟨hih.1, hih.2.1, ?_⟩
        rw [List.any_append, hih.2.2]
        have hfalse :
            (if (!chunks.isEmpty && decide (500 < t - lct)) = true then
                (if stripTruthy chunks.flatten = true then
                  [TEvent.output_update chunks.flatten t]
                else [])
              else ([] : List TEvent)).any TEvent.isResponseTimeout
              = false := by
          split
          · split
            · rfl
            · rfl
          · rfl
        rw [hfalse, Bool.false_or]
      · simp only [hw, if_false] at h ⊢
        refine ⟨by simp, by simp, ?_⟩
        show (streamFinishEvents complete t).any TEvent.isResponseTimeout = _
        rw [streamFinishEvents]
        cases hst : stripTruthy complete
        · simp [TEvent.isResponseTimeout, hst]
        · simp [TEvent.isResponseTimeout, hst]
    · -- a read arrived
      simp only [runsToTimeout] at h
      simp only [streamLoop, consumedReads]
      by_cases hw : t - startTime < timeout
      · simp only [hw, if_true] at h ⊢
        have halive : alive = true := by
          cases alive
          · simp at h
          · rfl
        subst halive
        rw [Bool.true_and] at h
        simp only [if_true]
        by_cases htext : text.isEmpty
        · rw [if_pos htext] at h ⊢
          have htnil : text = [] := List.isEmpty_iff.mp htext
          subst htnil
          have hih := ih buffer complete chunks lct lot h
          refine ⟨hih.1, ?_, ?_⟩
          · rw [hih.2.1]
            simp
          · rw [hih.2.2]
            simp
        · rw [if_neg htext] at h ⊢
          rw [Bool.and_eq_true, Bool.not_eq_true'] at h
          obtain ⟨hnp, hrec⟩ := h
          rw [if_neg (by rw [hnp]; exact Bool.false_ne_true)]
          have hih := ih (buffer ++ text) (complete ++ text)
            (chunks ++ [text]) t t hrec
          refine ⟨hih.1, ?_, ?_⟩
          · rw [hih.2.1]
            simp
          · rw [List.any_append, hih.2.2]
            have hfalse :
                ((TEvent.terminal_output text t ::
                  (if (stream_clear_patterns.any fun p => containsSub p text)
                      = true
                    then [TEvent.screen_clear t] else [])).any
                      TEvent.isResponseTimeout) = false := by
              split
              · rfl
              · rfl
            rw [hfalse, Bool.false_or]
            simp
      · simp only [hw, if_false] at h ⊢
        refine ⟨by simp, by simp, ?_⟩
        show (streamFinishEvents complete t).any TEvent.isResponseTimeout = _
        rw [streamFinishEvents]
        cases hst : stripTruthy complete
        · simp [TEvent.isResponseTimeout, hst]
        · simp [TEvent.isResponseTimeout, hst]

/-- Claim C3 amended: on any scripted run that reaches the hard-timeout
boundary with the process alive, no readiness match on the accumulated
buffer, and no inactivity gap, the loop runs to the hard timeout and
returns the concatenation of all decoded reads in arrival order; the
response_timeout event is emitted precisely when that accumulated output
survives strip (contains a non-whitespace character), not unconditionally. -/
theorem claim3_stream_hard_timeout (timeout startTime lot0 : Nat)
    (evs : List ReadEvent)
    (h : runsToTimeout timeout startTime evs [] lot0 = true) :
    (stream_terminal_output timeout startTime lot0 evs).exit
        = StreamExit.hardTimeout ∧
    (stream_terminal_output timeout startTime lot0 evs).output
        = (consumedReads timeout startTime evs).flatten ∧
    (stream_terminal_output timeout startTime lot0 evs).events.any
        TEvent.isResponseTimeout
      = stripTruthy ((consumedReads timeout startTime evs).flatten) := by
  have hh := streamLoop_runs_to_timeout timeout startTime evs [] [] []
    startTime lot0 h
  rw [stream_terminal_output]
  simpa using hh

/-- A scripted run delivering one visible read, one quiet poll, and the
hard-timeout boundary. -/
def witnessTrace : List ReadEvent :=
  [ReadEvent.mk 100 true (some (("h").toList)),
   ReadEvent.mk 1200 true none,
   ReadEvent.mk 6000 true none]

/-- Witness for claim C3 at a concrete scripted run. -/
theorem claim3_witness :
    runsToTimeout 6000 0 witnessTrace [] 0 = true ∧
    (stream_terminal_output 6000 0 0 witnessTrace).exit
        = StreamExit.hardTimeout ∧
    (stream_terminal_output 6000 0 0 witnessTrace).output
        = (consumedReads 6000 0 witnessTrace).flatten := by
  refine ⟨by decide, ?_, ?_⟩
  · exact (claim3_stream_hard_timeout 6000 0 0 witnessTrace (by decide)).1
  · exact (claim3_stream_hard_timeout 6000 0 0 witnessTrace (by decide)).2.1

/-- A scripted run whose only read is a single blank: it never matches
readiness and never goes quiet for five seconds, and the loop reaches the
hard timeout. -/
def blankTrace : List ReadEvent :=
  [ReadEvent.mk 100 true (some ((" ").toList)),
   ReadEvent.mk 2000 true none]

/-- Claim C3 counterexample: the blank-read run satisfies every premise of
the claim (no readiness match, no inactivity gap, hard timeout reached,
output equal to the concatenation of the reads), yet no response_timeout
event is emitted, because the source guards the emission behind
complete_output.strip() at line 219. -/
theorem claim3_counterexample :
    runsToTimeout 1000 0 blankTrace [] 0 = true ∧
    (stream_terminal_output 1000 0 0 blankTrace).exit
        = StreamExit.hardTimeout ∧
    (stream_terminal_output 1000 0 0 blankTrace).output
        = (consumedReads 1000 0 blankTrace).flatten ∧
    (stream_terminal_output 1000 0 0 blankTrace).events.any
        TEvent.isResponseTimeout = false := by
  refine ⟨by decide, by decide, by decide, by decide⟩

/-! ### Protocol adapter: the structured command loop of main
(source lines 461-531) -/

/-- The wrapper session state the command loop can touch: the subprocess
handle and PTY master descriptor (their identities as numbers, none when
absent), the session_ready flag, and the output buffer. -/
structure WrapperState where
  claude_process : Option Nat
  master : Option Nat
  session_ready : Bool
  output_buffer : List Char
deriving DecidableEq

/-- One stripped nonempty stdin line, after the json.loads attempt of
source line 502: the line was not valid structured input
(json.JSONDecodeError, line 522), it parsed to a non-object so the
command.get call raises (caught at line 524), or it parsed to an object
with the given action, message, and message_id fields. -/
inductive InCommand
  | invalidJson
  | nonObject
  | obj (action : Option String) (message : Option String)
      (message_id : Option Nat)
deriving DecidableEq

/-- A structured event printed by the command loop. Error-log texts carry
no data needed here and are elided. -/
inductive MainEvent
  | result (status : QueueStatus) (message_id : Option Nat)
  | pong (timestamp : Nat)
  | logError
deriving DecidableEq

/-- Whether the command loop continues after the line or breaks out. -/
inductive LoopCtl
  | next
  | stop
deriving DecidableEq

/-- The action string of the send_message branch (source line 504). -/
def actionSendMessage : String := "send_message"

/-- The action string of the ping branch (source line 513). -/
def actionPing : String := "ping"

/-- The action string of the shutdown branch (source line 519). -/
def actionExitCmd : String := "exit"

/-- The body of the command loop for one parsed line (source lines
493-525). The call wrapper.process_queue_item(message) is abstracted by
processFn, which yields the updated session state and the result status;
its default message is the empty string (line 505). Unknown actions fall
through every elif with no else branch, so nothing is emitted. -/
def handle_command
    (processFn : WrapperState → List Char → WrapperState × QueueStatus)
    (st : WrapperState) (now : Nat) :
    InCommand → WrapperState × List MainEvent × LoopCtl
  | InCommand.invalidJson => (st, [MainEvent.logError], LoopCtl.next)
  | InCommand.nonObject => (st, [MainEvent.logError], LoopCtl.next)
  | InCommand.obj action message message_id =>
    if action = some actionSendMessage then
      let msg := (message.getD ("")).toList
      let pr := processFn st msg
      (pr.1, [MainEvent.result pr.2 message_id], LoopCtl.next)
    else if action = some actionPing then
      (st, [MainEvent.pong now], LoopCtl.next)
    else if action = some actionExitCmd then
      (st, [], LoopCtl.stop)
    else
      (st, [], LoopCtl.next)

/-- Claim C9: handling a ping command emits exactly one pong event bearing
the timestamp, continues the loop, and leaves the whole session state — the
subprocess handle, the PTY master descriptor, the session_ready flag, and
the output buffer — unchanged, whatever the state and send-processing
behaviour. -/
theorem claim9_ping_pure
    (processFn : WrapperState → List Char → WrapperState × QueueStatus)
    (st : WrapperState) (now : Nat) (message : Option String)
    (mid : Option Nat) :
    handle_command processFn st now
        (InCommand.obj (some actionPing) message mid)
      = (st, [MainEvent.pong now], LoopCtl.next) ∧
    (handle_command processFn st now
        (InCommand.obj (some actionPing) message mid)).1.claude_process
      = st.claude_process ∧
    (handle_command processFn st now
        (InCommand.obj (some actionPing) message mid)).1.master = st.master ∧
    (handle_command processFn st now
        (InCommand.obj (some actionPing) message mid)).1.session_ready
      = st.session_ready ∧
    (handle_command processFn st now
        (InCommand.obj (some actionPing) message mid)).1.output_buffer
      = st.output_buffer := by
  refine ⟨?_, rfl, rfl, rfl, rfl⟩
  rfl

/-- Claim C7 amended: an invalid structured line, or a line parsing to a
non-object, is logged as an error and skipped with the loop continuing and
the state untouched; a well-formed object whose action is none of
send_message, ping, exit is skipped silently — the loop continues, the
state is untouched, but no error is logged. -/
theorem claim7_malformed_commands
    (processFn : WrapperState → List Char → WrapperState × QueueStatus)
    (st : WrapperState) (now : Nat) :
    handle_command processFn st now InCommand.invalidJson
      = (st, [MainEvent.logError], LoopCtl.next) ∧
    handle_command processFn st now InCommand.nonObject
      = (st, [MainEvent.logError], LoopCtl.next) ∧
    (∀ (action : Option String) (message : Option String)
        (mid : Option Nat),
      action ≠ some actionSendMessage → action ≠ some actionPing →
      action ≠ some actionExitCmd →
      handle_command processFn st now (InCommand.obj action message mid)
        = (st, [], LoopCtl.next)) := by
  refine ⟨rfl, rfl, ?_⟩
  intro action message mid h1 h2 h3
  rw [handle_command, if_neg h1, if_neg h2, if_neg h3]

/-- A send-processing stub that changes nothing and reports the
unreachable error status. -/
def procStub : WrapperState → List Char → WrapperState × QueueStatus :=
  fun st _ => (st, QueueStatus.errorUnexpected)

/-- A freshly initialised wrapper state (source lines 20-27). -/
def stInit : WrapperState := WrapperState.mk none none false []

/-- An action name outside the protocol. -/
def bogusAction : String := "bogus"

/-- Claim C7 counterexample: a JSON object whose action is the unknown
string bogus is skipped with the loop continuing, but no error is logged —
the emitted event list is empty — contradicting the claim that unknown
actions are logged as errors. -/
theorem claim7_counterexample :
    handle_command procStub stInit 0
        (InCommand.obj (some bogusAction) none none)
      = (stInit, [], LoopCtl.next) ∧
    (handle_command procStub stInit 0
        (InCommand.obj (some bogusAction) none none)).2.1.contains
        MainEvent.logError = false := by
  refine ⟨by decide, by decide⟩

/-- Witness for claim C7 at a concrete state and lines. -/
theorem claim7_witness :
    handle_command procStub stInit 0 InCommand.invalidJson
      = (stInit, [MainEvent.logError], LoopCtl.next) ∧
    handle_command procStub stInit 0 (InCommand.obj (some ("unknown")) none none)
      = (stInit, [], LoopCtl.next) := by
  refine ⟨(claim7_malformed_commands procStub stInit 0).1, ?_⟩
  exact (claim7_malformed_commands procStub stInit 0).2.2 (some ("unknown"))
    none none (by decide) (by decide) (by decide)

end ClaudePTY
